import Mathlib

/-!
# bca-api: the retry-on-auth-failure core of `bca.go`

A shallow embedding of `src/bca.go`: the error classifier
`errorIfErrCodeESB14009`, the retry predicate `retryDecision`, the option list
`retryOptions` with its `OnRetry` callback, and the session-scoped logger `log`.

The retry loop itself, `retry.Do`, belongs to the dependency
github.com/avast/retry-go; it is embedded after the library's loop so that the
options built by `retryOptions` can be run. bca.go names no release of the
library, so the loop takes the release as a parameter where releases differ
(`Release`), and statements about the policy hold for each release.

Go `error` values are interface values. `==` on two interface values holds when
both are nil, or when the dynamic types agree and the dynamic values are equal;
for pointer dynamic types (such as the `*errors.Err` that `errors.New` returns)
the dynamic value is the address. Addresses are explicit here, so the derived
equality of `GoError` is Go's `==`.
-/

namespace Bca

/-! ## Error values -/

/-- Go `error` interface value: nil, a pointer of some dynamic type (compared by
address), a non-pointer comparable value of some dynamic type, or the struct value
`unrecoverableError` that `retry.Unrecoverable(inner)` of the retry library makes
around an error. -/
inductive GoError where
  | nil : GoError
  | ptr (dynType : String) (addr : Nat) : GoError
  | value (dynType : String) (data : String) : GoError
  | unrecoverable (inner : GoError) : GoError
  deriving DecidableEq, Repr

/-- The library's `unpackUnrecoverable`: the error inside an `unrecoverableError`, any
other error unchanged. -/
def unpackUnrecoverable : GoError → GoError
  | GoError.unrecoverable inner => inner
  | e => e

/-- Heap object behind a `*errors.Err` of github.com/juju/errors: its message and the
error it annotates (`previous`), nil for one made by `errors.New`. -/
structure Err where
  message : String
  previous : GoError
  deriving DecidableEq, Repr

/-- Heap of `*errors.Err` objects; the address of an object is its index, so an
allocation never reuses the address of a live object. -/
abbrev ErrHeap := List Err

/-- Dynamic type of the values made by juju `errors.New`, `Annotate` and `Trace`. -/
def jujuErrType : String := "*errors.Err"

/-- Go `errors.New(message)` of juju/errors: allocates a fresh `Err` and returns the pointer. -/
def errorsNew (h : ErrHeap) (message : String) : GoError × ErrHeap :=
  (GoError.ptr jujuErrType h.length, h ++ [{ message := message, previous := GoError.nil }])

/-- Go `errors.Annotate(other, message)`: nil for a nil `other`, else a fresh `Err`
whose `previous` is `other`. -/
def errorsAnnotate (h : ErrHeap) (other : GoError) (message : String) : GoError × ErrHeap :=
  if other = GoError.nil then (GoError.nil, h)
  else (GoError.ptr jujuErrType h.length, h ++ [{ message := message, previous := other }])

/-- Go `errors.Trace(other)`: nil for a nil `other`, else a fresh `Err` with an empty
message whose `previous` is `other`. -/
def errorsTrace (h : ErrHeap) (other : GoError) : GoError × ErrHeap :=
  if other = GoError.nil then (GoError.nil, h)
  else (GoError.ptr jujuErrType h.length, h ++ [{ message := "", previous := other }])

/-- Message text of `ErrESB14009` (bca.go line 55). -/
def errESB14009Message : String := "Custom err. Meaning auth err from BCA API (ESB-14-009)"

/-- Heap after package initialisation: the one allocation of line 55. -/
def initHeap : ErrHeap := (errorsNew [] errESB14009Message).2

/-- Package-level `var ErrESB14009 = errors.New(...)` (bca.go line 55): the pointer
returned by the allocation made at package initialisation. -/
def ErrESB14009 : GoError := (errorsNew [] errESB14009Message).1

/-- A heap of a running program: it extends the heap of package initialisation. -/
def ErrHeap.Initialised (h : ErrHeap) : Prop := initHeap <+: h

instance (h : ErrHeap) : Decidable h.Initialised := by
  unfold ErrHeap.Initialised; infer_instance

/-! ## Data model -/

/-- Response error envelope `Error`. Only `ErrorCode` is read by `bca.go`; the
declaration lives in another file, so the remaining fields are a type parameter. -/
structure Error (ρ : Type) where
  ErrorCode : String
  rest : ρ

/-- Ambient `context.Context`, as far as cancellation goes. -/
inductive CtxState where
  | active
  | canceled
  | deadlineExceeded
  deriving DecidableEq, Repr

/-- Go `context.Context`: its cancellation state. -/
structure Context where
  state : CtxState
  deriving DecidableEq, Repr

/-- Go `ctx.Err()`: nil while active, `context.Canceled` (a `*errors.errorString`
of the standard library) or `context.DeadlineExceeded` (a struct value) once done. -/
def Context.Err (ctx : Context) : GoError :=
  match ctx.state with
  | CtxState.active => GoError.nil
  | CtxState.canceled => GoError.ptr "*errors.errorString" 0
  | CtxState.deadlineExceeded => GoError.value "context.deadlineExceededError" ""

/-- Client configuration `Config`: the field `bca.go` reads. -/
structure Config where
  LogPath : String
  deriving DecidableEq, Repr

/-- The `api` struct: the field `bca.go` reads. -/
structure api where
  bcaSessID : String
  deriving DecidableEq, Repr

/-- The `BCA` struct (bca.go lines 17-20). -/
structure BCA where
  api : api
  config : Config
  deriving DecidableEq, Repr

/-- The constant `MaxRetryAttempts` (bca.go line 23). -/
def MaxRetryAttempts : Nat := 2

/-! ## Error classifier and retry predicate -/

/-- The function `errorIfErrCodeESB14009` (bca.go lines 57-62). -/
def errorIfErrCodeESB14009 {ρ : Type} (dtoError : Error ρ) : GoError :=
  if dtoError.ErrorCode = "ESB-14-009" then ErrESB14009 else GoError.nil

/-- The method `retryDecision` (bca.go lines 64-68). The receiver is a pointer: `b` is the
client state the closure could read when it runs. Neither `b` nor `ctx` occurs
in the body. -/
def retryDecision (_b : BCA) (_ctx : Context) : GoError → Bool :=
  fun err => decide (err = ErrESB14009)

/-! ## Client state, effects and the session-scoped logger -/

/-- Severity of a log entry (`Infof` and `Error` of `zap.SugaredLogger`). -/
inductive Level where
  | info
  | error
  deriving DecidableEq, Repr

/-- Argument handed to a logging call. -/
inductive Arg where
  | uint (n : Nat)
  | err (e : GoError)
  deriving DecidableEq, Repr

/-- Derived per-call context: the ambient context plus the session identifier. -/
structure LogContext where
  parent : Context
  sessID : String
  deriving DecidableEq, Repr

/-- Modelled from the spec: package `context` of this repository (`bcaCtx`) is not under
src/. `bcaCtx.With(ctx, bcaCtx.BCASessID(id))` is the LogContext of the data model,
"composed of the ambient call context plus the current Session identifier". -/
def bcaCtxWith (ctx : Context) (sessID : String) : LogContext :=
  { parent := ctx, sessID := sessID }

/-- Logger value bound to a LogContext. -/
structure SugaredLogger where
  ctx : LogContext
  deriving DecidableEq, Repr

/-- Modelled from the spec: package `logger` of this repository is not under src/.
`logger.Logger(ctx)` "produces a logger value bound to the current Session identifier
and ambient call context". -/
def loggerLogger (ctx : LogContext) : SugaredLogger := { ctx := ctx }

/-- One structured log entry: severity, the context it is tagged with, and the call's
format string and arguments. -/
structure Entry where
  level : Level
  ctx : LogContext
  format : String
  args : List Arg
  deriving DecidableEq, Repr

/-- Observable effects, in program order. -/
inductive Effect where
  | logged (e : Entry)
  | recovery (ctx : Context)
  | attempt
  deriving DecidableEq, Repr

/-- Everything a call can read or write: the client behind the pointer `b`, the rest of
the world (remote service, network) as a parameter, and the effects so far. -/
structure World (ε : Type) where
  bca : BCA
  remote : ε
  trace : List Effect

/-- A wrapped operation: reads and writes the client and the remote side, returns an error. -/
abbrev Operation (ε : Type) := BCA → ε → GoError × BCA × ε

/-- Behaviour of `DoAuthentication` (declared in another file), with its first result
dropped as the callback drops it: reads and writes the client and the remote side. -/
abbrev Recovery (ε : Type) := Context → BCA → ε → GoError × BCA × ε

/-- The method `log` (bca.go lines 87-89): the session is read from the client each time
`log` is called. -/
def log (b : BCA) (ctx : Context) : SugaredLogger :=
  loggerLogger (bcaCtxWith ctx b.api.bcaSessID)

/-- Call `Infof(format, args...)`: emits an info-level entry and returns nothing. -/
def SugaredLogger.Infof {ε : Type} (l : SugaredLogger) (format : String) (args : List Arg)
    (w : World ε) : World ε :=
  { w with trace := w.trace ++ [Effect.logged ⟨Level.info, l.ctx, format, args⟩] }

/-- Call `Error(args...)`: emits an error-level entry and returns nothing. -/
def SugaredLogger.Error {ε : Type} (l : SugaredLogger) (args : List Arg)
    (w : World ε) : World ε :=
  { w with trace := w.trace ++ [Effect.logged ⟨Level.error, l.ctx, "", args⟩] }

/-- One call `b.DoAuthentication(ctx)`: recorded in the trace, then the parameter `auth`
acts on the client and the remote side. -/
def DoAuthentication {ε : Type} (auth : Recovery ε) (ctx : Context) (w : World ε) :
    GoError × World ε :=
  let r := auth ctx w.bca w.remote
  (r.1, { bca := r.2.1, remote := r.2.2, trace := w.trace ++ [Effect.recovery ctx] })

/-- One invocation of the wrapped operation, recorded in the trace. -/
def invoke {ε : Type} (op : Operation ε) (w : World ε) : GoError × World ε :=
  let r := op w.bca w.remote
  (r.1, { bca := r.2.1, remote := r.2.2, trace := w.trace ++ [Effect.attempt] })

/-- Format string of the first entry of the callback (bca.go line 75). -/
def startOnRetry : String := "=== START ON RETRY === [Attempts: %d Err: %+v]"

/-- Format string of the last entry of the callback (bca.go line 80). -/
def endOnRetry : String := "=== END ON RETRY ==="

/-- The `OnRetry` callback of `retryOptions` (bca.go lines 74-81). The assignment
`_, err = b.DoAuthentication(ctx)` rebinds the callback's own parameter; the callback
returns nothing. -/
def onRetry {ε : Type} (auth : Recovery ε) (ctx : Context) (n : Nat) (err : GoError)
    (w : World ε) : World ε :=
  let w1 := (log w.bca ctx).Infof startOnRetry [Arg.uint n, Arg.err err] w
  let r := DoAuthentication auth ctx w1
  let err := r.1
  let w2 := if err ≠ GoError.nil then (log r.2.bca ctx).Error [Arg.err err] r.2 else r.2
  (log w2.bca ctx).Infof endOnRetry [] w2

/-! ## Retry options and the retry policy -/

/-- The three options of github.com/avast/retry-go that `retryOptions` builds. The
callbacks are closures over the client pointer, so they take the world they run in. -/
inductive RetryOption (ε : Type) where
  | Attempts (attempts : Nat)
  | RetryIf (retryIf : GoError → World ε → Bool)
  | OnRetry (onRetry : Nat → GoError → World ε → World ε)

/-- The method `retryOptions` (bca.go lines 70-83). -/
def retryOptions {ε : Type} (auth : Recovery ε) (ctx : Context) : List (RetryOption ε) :=
  [ RetryOption.Attempts MaxRetryAttempts,
    RetryOption.RetryIf (fun err w => retryDecision w.bca ctx err),
    RetryOption.OnRetry (onRetry auth ctx) ]

/-- Configuration record of the retry library, as far as `retryOptions` sets it: the
ceiling on invocations, the retry predicate and the hook. -/
structure RetryConfig (ε : Type) where
  attempts : Nat
  retryIf : GoError → World ε → Bool
  onRetry : Nat → GoError → World ε → World ε

/-- An option of the retry library is a function that sets its field of the configuration. -/
def RetryConfig.apply {ε : Type} (cfg : RetryConfig ε) : RetryOption ε → RetryConfig ε
  | RetryOption.Attempts a => { cfg with attempts := a }
  | RetryOption.RetryIf p => { cfg with retryIf := p }
  | RetryOption.OnRetry f => { cfg with onRetry := f }

/-- Start of `retry.Do`: the options are applied in order to the library's defaults `base`. -/
def RetryConfig.configure {ε : Type} (base : RetryConfig ε) (opts : List (RetryOption ε)) :
    RetryConfig ε :=
  opts.foldl RetryConfig.apply base

/-- Value returned by `retry.Do`: nil, or the library's error list `retry.Error` holding the
errors of the failed invocations in order (`LastErrorOnly` is not among the options of
`retryOptions`). -/
inductive DoResult where
  | ok
  | failed (errorLog : List GoError)
  deriving DecidableEq, Repr

/-- Releases of github.com/avast/retry-go order two steps of the loop differently, and
bca.go imports the library without naming a release: up to v2.4.1 the `OnRetry` hook runs
on every error before `RetryIf` is consulted (`hookFirst`); from v2.5.0 on `RetryIf` is
consulted first and the hook runs only when it accepts the error (`predicateFirst`). -/
inductive Release where
  | hookFirst
  | predicateFirst
  deriving DecidableEq, Repr

/-- The loop of `retry.Do` in the dependency github.com/avast/retry-go, which is outside
this repository (bca.go imports it without a major-version suffix, that is a release
before v4). `remaining + 1` is `config.attempts - n`; waiting between invocations is not
modelled, and the unused nil slots of the error list are left out.

    for n < config.attempts
      err := retryableFunc()
      if err != nil
        (hookFirst)       config.onRetry(n, err)
        errorLog[n] = unpackUnrecoverable(err)
        if !config.retryIf(err) then break
        (predicateFirst)  config.onRetry(n, err)
        if n == config.attempts-1 then break     (last attempt: do not wait)
        sleep
      else return nil
      n++
    return errorLog

`Attempts` bounds the number of invocations, the first included, and the hook also runs
after the last allowed invocation. -/
def RetryConfig.loop {ε : Type} (rel : Release) (cfg : RetryConfig ε) (op : Operation ε) :
    Nat → Nat → List GoError → World ε → DoResult × World ε
  | 0, _, errorLog, w => (DoResult.failed errorLog, w)
  | remaining + 1, n, errorLog, w =>
    let r := invoke op w
    if r.1 = GoError.nil then (DoResult.ok, r.2)
    else
      match rel with
      | Release.hookFirst =>
        let w2 := cfg.onRetry n r.1 r.2
        if cfg.retryIf r.1 w2 then
          if remaining = 0 then (DoResult.failed (errorLog ++ [unpackUnrecoverable r.1]), w2)
          else RetryConfig.loop rel cfg op remaining (n + 1)
            (errorLog ++ [unpackUnrecoverable r.1]) w2
        else (DoResult.failed (errorLog ++ [unpackUnrecoverable r.1]), w2)
      | Release.predicateFirst =>
        if cfg.retryIf r.1 r.2 then
          let w2 := cfg.onRetry n r.1 r.2
          if remaining = 0 then (DoResult.failed (errorLog ++ [unpackUnrecoverable r.1]), w2)
          else RetryConfig.loop rel cfg op remaining (n + 1)
            (errorLog ++ [unpackUnrecoverable r.1]) w2
        else (DoResult.failed (errorLog ++ [unpackUnrecoverable r.1]), r.2)

/-- The function `retry.Do` after the options are applied: the loop from `n = 0` with an
empty error list. -/
def RetryConfig.Do {ε : Type} (rel : Release) (cfg : RetryConfig ε) (op : Operation ε)
    (w : World ε) : DoResult × World ε :=
  cfg.loop rel op cfg.attempts 0 [] w

/-- The retry policy configured by `retryOptions(ctx)`, run on a wrapped operation:
`retry.Do(op, b.retryOptions(ctx)...)`, under release `rel` of the library with
defaults `base`. -/
def retryPolicy {ε : Type} (rel : Release) (base : RetryConfig ε) (auth : Recovery ε)
    (ctx : Context) (op : Operation ε) (w : World ε) : DoResult × World ε :=
  (RetryConfig.configure base (retryOptions auth ctx)).Do rel op w

/-- Number of invocations of the wrapped operation in a trace. -/
def attemptCount : List Effect → Nat
  | [] => 0
  | Effect.attempt :: t => attemptCount t + 1
  | Effect.recovery _ :: t => attemptCount t
  | Effect.logged _ :: t => attemptCount t

/-- Number of invocations of the recovery action in a trace. -/
def recoveryCount : List Effect → Nat
  | [] => 0
  | Effect.attempt :: t => recoveryCount t
  | Effect.recovery _ :: t => recoveryCount t + 1
  | Effect.logged _ :: t => recoveryCount t

/-- Number of error-level log entries in a trace. -/
def errorEntryCount : List Effect → Nat
  | [] => 0
  | Effect.attempt :: t => errorEntryCount t
  | Effect.recovery _ :: t => errorEntryCount t
  | Effect.logged e :: t => (if e.level = Level.error then 1 else 0) + errorEntryCount t

/-- The trace with the log entries dropped: invocations of the operation and of the
recovery action, in order. -/
def calls : List Effect → List Effect
  | [] => []
  | Effect.attempt :: t => Effect.attempt :: calls t
  | Effect.recovery c :: t => Effect.recovery c :: calls t
  | Effect.logged _ :: t => calls t

/-- Invocations of a run with `k` retries: the operation, then `k` times the recovery
action followed by the operation. -/
def retrySchedule (ctx : Context) : Nat → List Effect
  | 0 => [Effect.attempt]
  | k + 1 => Effect.attempt :: Effect.recovery ctx :: retrySchedule ctx k

/-- Message stored on the heap behind a juju error pointer, if it points into the heap. -/
def ErrHeap.message? (h : ErrHeap) : GoError → Option String
  | GoError.ptr t a => if t = jujuErrType then (h.get? a).map Err.message else none
  | _ => none

/-- Session identifiers of the log entries of a trace, in order. -/
def sessionTags : List Effect → List String
  | [] => []
  | Effect.logged e :: t => e.ctx.sessID :: sessionTags t
  | _ :: t => sessionTags t

/-- Effects of the part of the callback after the recovery action: an error-level entry
when the recovery action returned an error, then the end entry, both tagged with the
session `sess` stored at that moment. -/
def afterRecovery (ctx : Context) (sess : String) (authErr : GoError) : List Effect :=
  (if authErr ≠ GoError.nil then
    [Effect.logged ⟨Level.error, ⟨ctx, sess⟩, "", [Arg.err authErr]⟩] else []) ++
  [Effect.logged ⟨Level.info, ⟨ctx, sess⟩, endOnRetry, []⟩]

/-- All effects of one run of the callback from a client whose stored session is `sess`,
when the recovery action returns `authErr` and leaves the session `sess1`. -/
def onRetryEffects (ctx : Context) (n : Nat) (err : GoError) (sess : String)
    (authErr : GoError) (sess1 : String) : List Effect :=
  [Effect.logged ⟨Level.info, ⟨ctx, sess⟩, startOnRetry, [Arg.uint n, Arg.err err]⟩,
   Effect.recovery ctx] ++ afterRecovery ctx sess1 authErr

/-- Invocations of the recovery action that follow an invocation of the operation whose
error the predicate rejects: one under a `hookFirst` release, none otherwise. -/
def rejectedHook (rel : Release) (ctx : Context) : List Effect :=
  match rel with
  | Release.hookFirst => [Effect.recovery ctx]
  | Release.predicateFirst => []

/-- A run from world `w` that ended in `out`: it returned `res`, and the invocations of
the operation and of the recovery action it added to the trace are `c`, in order. -/
def Runs {ε : Type} (out : DoResult × World ε) (w : World ε) (res : DoResult)
    (c : List Effect) : Prop :=
  out.1 = res ∧ ∃ t : List Effect, out.2.trace = w.trace ++ t ∧ calls t = c

/-- The loop of the policy configured by `retryOptions(ctx)`, with `remaining` invocations
left, at attempt number `n` and error list `errorLog`. -/
def policyLoop {ε : Type} (rel : Release) (auth : Recovery ε) (ctx : Context)
    (op : Operation ε) : Nat → Nat → List GoError → World ε → DoResult × World ε :=
  RetryConfig.loop rel
    { attempts := MaxRetryAttempts,
      retryIf := fun err w => retryDecision w.bca ctx err,
      onRetry := onRetry auth ctx } op

/-- The world after an invocation of the operation whose error `e` the predicate rejects:
under a `hookFirst` release the callback has run on it. -/
def rejectedWorld {ε : Type} (rel : Release) (auth : Recovery ε) (ctx : Context) (n : Nat)
    (e : GoError) (w : World ε) : World ε :=
  match rel with
  | Release.hookFirst => onRetry auth ctx n e w
  | Release.predicateFirst => w

/-! ## Concrete inputs -/

/-- A client holding session "session-0". -/
def exampleClient : BCA :=
  { api := { bcaSessID := "session-0" }, config := { LogPath := "bca.log" } }

/-- A world whose remote side counts the invocations of the operation; no effects yet. -/
def exampleWorld : World Nat := { bca := exampleClient, remote := 0, trace := [] }

/-- Some defaults for the configuration before the options are applied. -/
def exampleBase : RetryConfig Nat :=
  { attempts := 10, retryIf := fun _ _ => true, onRetry := fun _ _ w => w }

/-- An operation that returns `e` on every invocation. -/
def alwaysReturns (e : GoError) : Operation Nat := fun b r => (e, b, r + 1)

/-- An operation that fails with `ErrESB14009` on its first two invocations and succeeds
from the third on. -/
def failsTwice : Operation Nat :=
  fun b r => (if r < 2 then ErrESB14009 else GoError.nil, b, r + 1)

/-- A recovery action that always fails and leaves the client as it is. -/
def authRefused : Recovery Nat :=
  fun _ b r => (GoError.value "net.OpError" "connection refused", b, r)

/-- A recovery action that succeeds and stores session "session-1". -/
def authRenewed : Recovery Nat :=
  fun _ b r => (GoError.nil, { b with api := { bcaSessID := "session-1" } }, r)

/-- An application error for the response code "ESB-99-999". -/
def errESB99999 : GoError := GoError.value "bca.Error" "ESB-99-999"

/-! ## Basic facts -/

theorem ErrESB14009_eq : ErrESB14009 = GoError.ptr jujuErrType 0 := rfl

theorem ErrESB14009_ne_nil : ErrESB14009 ≠ GoError.nil := by decide

theorem retryDecision_eq_true (b : BCA) (ctx : Context) (e : GoError) :
    retryDecision b ctx e = true ↔ e = ErrESB14009 := by
  simp [retryDecision]

theorem retryDecision_eq_false (b : BCA) (ctx : Context) (e : GoError) :
    retryDecision b ctx e = false ↔ e ≠ ErrESB14009 := by
  simp [retryDecision]

theorem initialised_length_pos (h : ErrHeap) (hi : h.Initialised) : 0 < h.length := by
  obtain ⟨t, rfl⟩ := hi
  simp [initHeap, errorsNew]

theorem fresh_ptr_ne (h : ErrHeap) (hi : h.Initialised) :
    GoError.ptr jujuErrType h.length ≠ ErrESB14009 := by
  have hp := initialised_length_pos h hi
  rw [ErrESB14009_eq]
  intro hc
  injection hc with _ h2
  omega

theorem errorIfErrCodeESB14009_eq_sentinel {ρ : Type} (d : Error ρ) :
    errorIfErrCodeESB14009 d = ErrESB14009 ↔ d.ErrorCode = "ESB-14-009" := by
  unfold errorIfErrCodeESB14009
  by_cases hc : d.ErrorCode = "ESB-14-009"
  · simp [hc]
  · simp only [hc, if_false, iff_false]
    exact fun h => ErrESB14009_ne_nil h.symm

/-! ## Claims about the classifier and the predicate -/

/-- C1: `errorIfErrCodeESB14009(d)` is the sentinel `ErrESB14009` exactly when `d.ErrorCode` is
the string "ESB-14-009" and nil for every other code (the empty string, another case,
surrounding whitespace, a longer or shorter string); no other field of `d` matters. -/
theorem errorIfErrCodeESB14009_exact {ρ : Type} (d : Error ρ) :
    (errorIfErrCodeESB14009 d = ErrESB14009 ↔ d.ErrorCode = "ESB-14-009") ∧
    (d.ErrorCode ≠ "ESB-14-009" → errorIfErrCodeESB14009 d = GoError.nil) ∧
    (∀ (σ : Type) (d' : Error σ), d'.ErrorCode = d.ErrorCode →
      errorIfErrCodeESB14009 d' = errorIfErrCodeESB14009 d) ∧
    (∀ c ∈ ["", "esb-14-009", "Esb-14-009", " ESB-14-009", "ESB-14-009 ", "ESB-14-009\n",
        "ESB-14-0091", "XESB-14-009", "ESB-14-00", "ESB-14-009ESB-14-009"],
      errorIfErrCodeESB14009 ({ d with ErrorCode := c }) = GoError.nil) := by
  refine ⟨?_, ?_, ?_, ?_⟩
  · exact errorIfErrCodeESB14009_eq_sentinel d
  · intro hc
    simp [errorIfErrCodeESB14009, hc]
  · intro σ d' hd
    simp [errorIfErrCodeESB14009, hd]
  · intro c hc
    have hne : c ≠ "ESB-14-009" := by
      intro h
      subst h
      revert hc
      decide
    simp [errorIfErrCodeESB14009, hne]

/-- C2: for every error value `e` (nil included) the predicate returned by `retryDecision(ctx)`
is true exactly when `e` is `ErrESB14009`; hence on the classifier's result for an envelope
`d` it is true exactly when `d.ErrorCode` is "ESB-14-009". -/
theorem retryDecision_iff_sentinel {ρ : Type} (b : BCA) (ctx : Context) :
    (∀ e : GoError, retryDecision b ctx e = true ↔ e = ErrESB14009) ∧
    retryDecision b ctx GoError.nil = false ∧
    (∀ d : Error ρ,
      retryDecision b ctx (errorIfErrCodeESB14009 d) = true ↔ d.ErrorCode = "ESB-14-009") := by
  refine ⟨fun e => retryDecision_eq_true b ctx e, ?_, ?_⟩
  · rw [retryDecision_eq_false]
    exact fun h => ErrESB14009_ne_nil h.symm
  · intro d
    rw [retryDecision_eq_true]
    exact errorIfErrCodeESB14009_eq_sentinel d

/-- C10: the predicate compares with the one value `ErrESB14009` by identity. In every heap of
a running program, an error made by annotating or tracing `ErrESB14009`, and a new error
with the same message text, is a different value and the predicate is false on it; and the
predicate gives the same answer for every context and every client state. -/
theorem retryDecision_by_identity (h : ErrHeap) (hi : h.Initialised) (b : BCA) (ctx : Context)
    (message : String) :
    retryDecision b ctx (errorsAnnotate h ErrESB14009 message).1 = false ∧
    retryDecision b ctx (errorsTrace h ErrESB14009).1 = false ∧
    (errorsNew h errESB14009Message).2.message? (errorsNew h errESB14009Message).1
      = (errorsNew h errESB14009Message).2.message? ErrESB14009 ∧
    (errorsNew h errESB14009Message).2.message? ErrESB14009 = some errESB14009Message ∧
    retryDecision b ctx (errorsNew h errESB14009Message).1 = false ∧
    (∀ (b' : BCA) (ctx' : Context) (e : GoError),
      retryDecision b' ctx' e = retryDecision b ctx e) := by
  have hfresh := fresh_ptr_ne h hi
  have hpos := initialised_length_pos h hi
  have h0 : h.get? 0 = some { message := errESB14009Message, previous := GoError.nil } := by
    obtain ⟨t, rfl⟩ := hi
    simp [initHeap, errorsNew]
  refine ⟨?_, ?_, ?_, ?_, ?_, ?_⟩
  · rw [retryDecision_eq_false]
    simpa [errorsAnnotate, ErrESB14009_ne_nil] using hfresh
  · rw [retryDecision_eq_false]
    simpa [errorsTrace, ErrESB14009_ne_nil] using hfresh
  · simp [errorsNew, ErrHeap.message?, ErrESB14009_eq, List.getElem?_append_left hpos, h0,
      List.get?_eq_getElem?] at h0 ⊢
    simp [h0]
  · simp [errorsNew, ErrHeap.message?, ErrESB14009_eq, List.getElem?_append_left hpos,
      List.get?_eq_getElem?] at h0 ⊢
    simp [h0]
  · rw [retryDecision_eq_false]
    simpa [errorsNew] using hfresh
  · intro b' ctx' e
    rfl

/-- C10 at the heap of package initialisation. -/
theorem retryDecision_by_identity_witness :
    initHeap.Initialised ∧
    retryDecision ⟨⟨"sess"⟩, ⟨"bca.log"⟩⟩ ⟨CtxState.active⟩
      (errorsAnnotate initHeap ErrESB14009 "call failed").1 = false ∧
    retryDecision ⟨⟨"sess"⟩, ⟨"bca.log"⟩⟩ ⟨CtxState.active⟩
      (errorsNew initHeap errESB14009Message).1 = false :=
  ⟨by decide,
   (retryDecision_by_identity initHeap (by decide) ⟨⟨"sess"⟩, ⟨"bca.log"⟩⟩ ⟨CtxState.active⟩
      "call failed").1,
   (retryDecision_by_identity initHeap (by decide) ⟨⟨"sess"⟩, ⟨"bca.log"⟩⟩ ⟨CtxState.active⟩
      "call failed").2.2.2.2.1⟩

/-! ## The callback -/

theorem onRetry_trace {ε : Type} (auth : Recovery ε) (ctx : Context) (n : Nat) (err : GoError)
    (w : World ε) :
    (onRetry auth ctx n err w).trace = w.trace ++
      onRetryEffects ctx n err w.bca.api.bcaSessID (auth ctx w.bca w.remote).1
        (auth ctx w.bca w.remote).2.1.api.bcaSessID := by
  by_cases ha : (auth ctx w.bca w.remote).1 = GoError.nil <;>
    simp [onRetry, onRetryEffects, afterRecovery, DoAuthentication, SugaredLogger.Infof,
      SugaredLogger.Error, log, loggerLogger, bcaCtxWith, ha]

theorem onRetry_bca {ε : Type} (auth : Recovery ε) (ctx : Context) (n : Nat) (err : GoError)
    (w : World ε) : (onRetry auth ctx n err w).bca = (auth ctx w.bca w.remote).2.1 := by
  by_cases ha : (auth ctx w.bca w.remote).1 = GoError.nil <;>
    simp [onRetry, DoAuthentication, SugaredLogger.Infof, SugaredLogger.Error, ha]

theorem onRetry_remote {ε : Type} (auth : Recovery ε) (ctx : Context) (n : Nat) (err : GoError)
    (w : World ε) : (onRetry auth ctx n err w).remote = (auth ctx w.bca w.remote).2.2 := by
  by_cases ha : (auth ctx w.bca w.remote).1 = GoError.nil <;>
    simp [onRetry, DoAuthentication, SugaredLogger.Infof, SugaredLogger.Error, ha]

theorem sessionTags_append (s t : List Effect) :
    sessionTags (s ++ t) = sessionTags s ++ sessionTags t := by
  induction s with
  | nil => rfl
  | cons a s ih => cases a <;> simp [sessionTags, ih]

theorem sessionTags_afterRecovery (ctx : Context) (sess : String) (authErr : GoError) :
    ∀ x ∈ sessionTags (afterRecovery ctx sess authErr), x = sess := by
  intro x hx
  by_cases ha : authErr = GoError.nil <;>
    simp [afterRecovery, ha, sessionTags] at hx <;> simp [hx]

/-! ## The retry policy -/

theorem attemptCount_append (s t : List Effect) :
    attemptCount (s ++ t) = attemptCount s + attemptCount t := by
  induction s with
  | nil => simp [attemptCount]
  | cons a s ih => cases a <;> simp [attemptCount, ih]; omega

theorem recoveryCount_append (s t : List Effect) :
    recoveryCount (s ++ t) = recoveryCount s + recoveryCount t := by
  induction s with
  | nil => simp [recoveryCount]
  | cons a s ih => cases a <;> simp [recoveryCount, ih]; omega

theorem errorEntryCount_append (s t : List Effect) :
    errorEntryCount (s ++ t) = errorEntryCount s + errorEntryCount t := by
  induction s with
  | nil => simp [errorEntryCount]
  | cons a s ih => cases a <;> simp [errorEntryCount, ih]; omega

theorem calls_append (s t : List Effect) : calls (s ++ t) = calls s ++ calls t := by
  induction s with
  | nil => rfl
  | cons a s ih => cases a <;> simp [calls, ih]

theorem attemptCount_calls (t : List Effect) : attemptCount (calls t) = attemptCount t := by
  induction t with
  | nil => rfl
  | cons a t ih => cases a <;> simp [calls, attemptCount, ih]

theorem recoveryCount_calls (t : List Effect) : recoveryCount (calls t) = recoveryCount t := by
  induction t with
  | nil => rfl
  | cons a t ih => cases a <;> simp [calls, recoveryCount, ih]

theorem attemptCount_retrySchedule (ctx : Context) (k : Nat) :
    attemptCount (retrySchedule ctx k) = k + 1 := by
  induction k with
  | zero => rfl
  | succ k ih => simp [retrySchedule, attemptCount, ih]

theorem recoveryCount_retrySchedule (ctx : Context) (k : Nat) :
    recoveryCount (retrySchedule ctx k) = k := by
  induction k with
  | zero => rfl
  | succ k ih => simp [retrySchedule, attemptCount, recoveryCount, ih]

theorem calls_onRetryEffects (ctx : Context) (n : Nat) (err : GoError) (sess : String)
    (authErr : GoError) (sess1 : String) :
    calls (onRetryEffects ctx n err sess authErr sess1) = [Effect.recovery ctx] := by
  by_cases ha : authErr = GoError.nil <;> simp [onRetryEffects, afterRecovery, calls, ha]

theorem errorEntryCount_onRetryEffects (ctx : Context) (n : Nat) (err : GoError) (sess : String)
    (authErr : GoError) (sess1 : String) :
    errorEntryCount (onRetryEffects ctx n err sess authErr sess1)
      = if authErr ≠ GoError.nil then 1 else 0 := by
  by_cases ha : authErr = GoError.nil <;>
    simp [onRetryEffects, afterRecovery, errorEntryCount, ha]

theorem invoke_trace {ε : Type} (op : Operation ε) (w : World ε) :
    (invoke op w).2.trace = w.trace ++ [Effect.attempt] := rfl

theorem invoke_fst {ε : Type} (op : Operation ε) (w : World ε) :
    (invoke op w).1 = (op w.bca w.remote).1 := rfl

theorem configure_retryOptions {ε : Type} (base : RetryConfig ε) (auth : Recovery ε)
    (ctx : Context) :
    RetryConfig.configure base (retryOptions auth ctx) =
      { attempts := MaxRetryAttempts,
        retryIf := fun err w => retryDecision w.bca ctx err,
        onRetry := onRetry auth ctx } := rfl

theorem retryPolicy_eq {ε : Type} (rel : Release) (base : RetryConfig ε) (auth : Recovery ε)
    (ctx : Context) (op : Operation ε) (w : World ε) :
    retryPolicy rel base auth ctx op w = policyLoop rel auth ctx op MaxRetryAttempts 0 [] w :=
  rfl

theorem unpackUnrecoverable_sentinel : unpackUnrecoverable ErrESB14009 = ErrESB14009 := rfl

theorem policyLoop_nil {ε : Type} (rel : Release) (auth : Recovery ε) (ctx : Context)
    (op : Operation ε) (remaining n : Nat) (errorLog : List GoError) (w : World ε)
    (h : (invoke op w).1 = GoError.nil) :
    policyLoop rel auth ctx op (remaining + 1) n errorLog w
      = (DoResult.ok, (invoke op w).2) := by
  simp [policyLoop, RetryConfig.loop, h]

theorem policyLoop_other {ε : Type} (rel : Release) (auth : Recovery ε) (ctx : Context)
    (op : Operation ε) (remaining n : Nat) (errorLog : List GoError) (w : World ε)
    (hnil : (invoke op w).1 ≠ GoError.nil) (hne : (invoke op w).1 ≠ ErrESB14009) :
    policyLoop rel auth ctx op (remaining + 1) n errorLog w
      = (DoResult.failed (errorLog ++ [unpackUnrecoverable (invoke op w).1]),
          rejectedWorld rel auth ctx n (invoke op w).1 (invoke op w).2) := by
  cases rel <;> simp [policyLoop, RetryConfig.loop, hnil, retryDecision, hne, rejectedWorld]

theorem policyLoop_last_sentinel {ε : Type} (rel : Release) (auth : Recovery ε)
    (ctx : Context) (op : Operation ε) (n : Nat) (errorLog : List GoError) (w : World ε)
    (h : (invoke op w).1 = ErrESB14009) :
    policyLoop rel auth ctx op 1 n errorLog w
      = (DoResult.failed (errorLog ++ [ErrESB14009]),
          onRetry auth ctx n ErrESB14009 (invoke op w).2) := by
  cases rel <;>
    simp [policyLoop, RetryConfig.loop, h, ErrESB14009_ne_nil, retryDecision,
      unpackUnrecoverable_sentinel]

theorem policyLoop_more_sentinel {ε : Type} (rel : Release) (auth : Recovery ε)
    (ctx : Context) (op : Operation ε) (remaining n : Nat) (errorLog : List GoError)
    (w : World ε) (h : (invoke op w).1 = ErrESB14009) :
    policyLoop rel auth ctx op (remaining + 2) n errorLog w
      = policyLoop rel auth ctx op (remaining + 1) (n + 1) (errorLog ++ [ErrESB14009])
          (onRetry auth ctx n ErrESB14009 (invoke op w).2) := by
  cases rel <;>
    simp [policyLoop, RetryConfig.loop, h, ErrESB14009_ne_nil, retryDecision,
      unpackUnrecoverable_sentinel]

theorem onRetry_trace_calls {ε : Type} (auth : Recovery ε) (ctx : Context) (n : Nat)
    (err : GoError) (w : World ε) :
    ∃ E : List Effect, (onRetry auth ctx n err w).trace = w.trace ++ E ∧
      calls E = [Effect.recovery ctx] ∧
      errorEntryCount E = if (auth ctx w.bca w.remote).1 ≠ GoError.nil then 1 else 0 :=
  ⟨_, onRetry_trace auth ctx n err w, calls_onRetryEffects _ _ _ _ _ _,
    errorEntryCount_onRetryEffects _ _ _ _ _ _⟩

theorem rejectedWorld_trace_calls {ε : Type} (rel : Release) (auth : Recovery ε)
    (ctx : Context) (n : Nat) (e : GoError) (w : World ε) :
    ∃ E : List Effect, (rejectedWorld rel auth ctx n e w).trace = w.trace ++ E ∧
      calls E = rejectedHook rel ctx := by
  cases rel
  · obtain ⟨E, hE, hc, _⟩ := onRetry_trace_calls auth ctx n e w
    exact ⟨E, hE, hc⟩
  · exact ⟨[], (List.append_nil _).symm, rfl⟩

theorem rejectedHook_cases (rel : Release) (ctx : Context) :
    rejectedHook rel ctx = [] ∨ rejectedHook rel ctx = [Effect.recovery ctx] := by
  cases rel
  · exact Or.inr rfl
  · exact Or.inl rfl

theorem policyLoop_schedule {ε : Type} (rel : Release) (auth : Recovery ε) (ctx : Context)
    (op : Operation ε) :
    ∀ (remaining n : Nat) (errorLog : List GoError) (w : World ε),
      ∃ (k : Nat) (t : List Effect), k ≤ remaining ∧
        (policyLoop rel auth ctx op (remaining + 1) n errorLog w).2.trace = w.trace ++ t ∧
        (calls t = retrySchedule ctx k ∨
          calls t = retrySchedule ctx k ++ [Effect.recovery ctx]) := by
  intro remaining
  induction remaining with
  | zero =>
    intro n errorLog w
    by_cases h : (invoke op w).1 = GoError.nil
    · refine ⟨0, [Effect.attempt], le_refl 0, ?_, Or.inl rfl⟩
      rw [policyLoop_nil rel auth ctx op 0 n errorLog w h]
      rfl
    · by_cases hs : (invoke op w).1 = ErrESB14009
      · obtain ⟨E, hE, hc, _⟩ := onRetry_trace_calls auth ctx n ErrESB14009 (invoke op w).2
        rw [policyLoop_last_sentinel rel auth ctx op n errorLog w hs]
        refine ⟨0, [Effect.attempt] ++ E, le_refl 0, ?_, Or.inr ?_⟩
        · show (onRetry auth ctx n ErrESB14009 (invoke op w).2).trace = _
          rw [hE, invoke_trace, List.append_assoc]
        · rw [calls_append, hc]
          rfl
      · obtain ⟨E, hE, hc⟩ :=
          rejectedWorld_trace_calls rel auth ctx n (invoke op w).1 (invoke op w).2
        rw [policyLoop_other rel auth ctx op 0 n errorLog w h hs]
        refine ⟨0, [Effect.attempt] ++ E, le_refl 0, ?_, ?_⟩
        · show (rejectedWorld rel auth ctx n (invoke op w).1 (invoke op w).2).trace = _
          rw [hE, invoke_trace, List.append_assoc]
        · rw [calls_append, hc]
          rcases rejectedHook_cases rel ctx with h0 | h1
          · left
            rw [h0]
            rfl
          · right
            rw [h1]
            rfl
  | succ remaining ih =>
    intro n errorLog w
    by_cases h : (invoke op w).1 = GoError.nil
    · refine ⟨0, [Effect.attempt], Nat.zero_le _, ?_, Or.inl rfl⟩
      rw [policyLoop_nil rel auth ctx op _ n errorLog w h]
      rfl
    · by_cases hs : (invoke op w).1 = ErrESB14009
      · obtain ⟨E, hE, hc, _⟩ := onRetry_trace_calls auth ctx n ErrESB14009 (invoke op w).2
        rw [policyLoop_more_sentinel rel auth ctx op remaining n errorLog w hs]
        obtain ⟨k, t, hk, ht, hcase⟩ := ih (n + 1) (errorLog ++ [ErrESB14009])
          (onRetry auth ctx n ErrESB14009 (invoke op w).2)
        refine ⟨k + 1, [Effect.attempt] ++ E ++ t, Nat.succ_le_succ hk, ?_, ?_⟩
        · rw [ht, hE, invoke_trace]
          simp only [List.append_assoc]
        · rcases hcase with hl | hr
          · left
            rw [calls_append, calls_append, hc, hl]
            rfl
          · right
            rw [calls_append, calls_append, hc, hr]
            rfl
      · obtain ⟨E, hE, hc⟩ :=
          rejectedWorld_trace_calls rel auth ctx n (invoke op w).1 (invoke op w).2
        rw [policyLoop_other rel auth ctx op _ n errorLog w h hs]
        refine ⟨0, [Effect.attempt] ++ E, Nat.zero_le _, ?_, ?_⟩
        · show (rejectedWorld rel auth ctx n (invoke op w).1 (invoke op w).2).trace = _
          rw [hE, invoke_trace, List.append_assoc]
        · rw [calls_append, hc]
          rcases rejectedHook_cases rel ctx with h0 | h1
          · left
            rw [h0]
            rfl
          · right
            rw [h1]
            rfl

theorem policyLoop_always_sentinel {ε : Type} (rel : Release) (auth : Recovery ε)
    (ctx : Context) (op : Operation ε)
    (hop : ∀ (b : BCA) (r : ε), (op b r).1 = ErrESB14009)
    (hauth : ∀ (c : Context) (b : BCA) (r : ε), (auth c b r).1 ≠ GoError.nil) :
    ∀ (remaining n : Nat) (errorLog : List GoError) (w : World ε),
      (policyLoop rel auth ctx op (remaining + 1) n errorLog w).1
        = DoResult.failed (errorLog ++ List.replicate (remaining + 1) ErrESB14009) ∧
      ∃ t : List Effect,
        (policyLoop rel auth ctx op (remaining + 1) n errorLog w).2.trace = w.trace ++ t ∧
        calls t = retrySchedule ctx remaining ++ [Effect.recovery ctx] ∧
        errorEntryCount t = remaining + 1 := by
  intro remaining
  induction remaining with
  | zero =>
    intro n errorLog w
    obtain ⟨E, hE, hc, he⟩ := onRetry_trace_calls auth ctx n ErrESB14009 (invoke op w).2
    rw [policyLoop_last_sentinel rel auth ctx op n errorLog w (hop _ _)]
    refine ⟨rfl, [Effect.attempt] ++ E, ?_, ?_, ?_⟩
    · show (onRetry auth ctx n ErrESB14009 (invoke op w).2).trace = _
      rw [hE, invoke_trace, List.append_assoc]
    · rw [calls_append, hc]
      rfl
    · rw [errorEntryCount_append, he, if_pos (hauth _ _ _)]
      rfl
  | succ remaining ih =>
    intro n errorLog w
    obtain ⟨E, hE, hc, he⟩ := onRetry_trace_calls auth ctx n ErrESB14009 (invoke op w).2
    rw [policyLoop_more_sentinel rel auth ctx op remaining n errorLog w (hop _ _)]
    obtain ⟨hres, t, ht, hct, het⟩ := ih (n + 1) (errorLog ++ [ErrESB14009])
      (onRetry auth ctx n ErrESB14009 (invoke op w).2)
    refine ⟨?_, [Effect.attempt] ++ E ++ t, ?_, ?_, ?_⟩
    · rw [hres, List.append_assoc]
      rfl
    · rw [ht, hE, invoke_trace]
      simp only [List.append_assoc]
    · rw [calls_append, calls_append, hc, hct]
      rfl
    · rw [errorEntryCount_append, errorEntryCount_append, he, het, if_pos (hauth _ _ _)]
      simp [errorEntryCount]
      omega

theorem counts_retrySchedule (ctx : Context) (k : Nat) (t : List Effect)
    (h : calls t = retrySchedule ctx k) :
    attemptCount t = k + 1 ∧ recoveryCount t = k := by
  rw [← attemptCount_calls, ← recoveryCount_calls, h, attemptCount_retrySchedule,
    recoveryCount_retrySchedule]
  exact ⟨rfl, rfl⟩

theorem counts_retrySchedule_recovery (ctx : Context) (k : Nat) (t : List Effect)
    (h : calls t = retrySchedule ctx k ++ [Effect.recovery ctx]) :
    attemptCount t = k + 1 ∧ recoveryCount t = k + 1 := by
  rw [← attemptCount_calls, ← recoveryCount_calls, h, attemptCount_append,
    recoveryCount_append, attemptCount_retrySchedule, recoveryCount_retrySchedule]
  exact ⟨rfl, rfl⟩

/-- A run of the policy whose first invocation returns no error. -/
theorem runs_first_ok {ε : Type} (rel : Release) (base : RetryConfig ε) (auth : Recovery ε)
    (ctx : Context) (op : Operation ε) (w : World ε) (h : (invoke op w).1 = GoError.nil) :
    Runs (retryPolicy rel base auth ctx op w) w DoResult.ok [Effect.attempt] := by
  have hm : MaxRetryAttempts = 1 + 1 := rfl
  rw [retryPolicy_eq, hm, policyLoop_nil rel auth ctx op 1 0 [] w h]
  exact ⟨rfl, [Effect.attempt], rfl, rfl⟩

/-- A run of the policy whose first invocation fails with an error the predicate rejects. -/
theorem runs_first_other {ε : Type} (rel : Release) (base : RetryConfig ε) (auth : Recovery ε)
    (ctx : Context) (op : Operation ε) (w : World ε) (e : GoError)
    (he : (invoke op w).1 = e) (hnil : e ≠ GoError.nil) (hne : e ≠ ErrESB14009) :
    Runs (retryPolicy rel base auth ctx op w) w (DoResult.failed [unpackUnrecoverable e])
      ([Effect.attempt] ++ rejectedHook rel ctx) := by
  have hm : MaxRetryAttempts = 1 + 1 := rfl
  subst he
  obtain ⟨E, hE, hc⟩ :=
    rejectedWorld_trace_calls rel auth ctx 0 (invoke op w).1 (invoke op w).2
  rw [retryPolicy_eq, hm, policyLoop_other rel auth ctx op 1 0 [] w hnil hne]
  refine ⟨rfl, [Effect.attempt] ++ E, ?_, ?_⟩
  · show (rejectedWorld rel auth ctx 0 (invoke op w).1 (invoke op w).2).trace = _
    rw [hE, invoke_trace, List.append_assoc]
  · rw [calls_append, hc]
    rfl

/-- A run of the policy whose first invocation fails with the sentinel and whose second
returns no error. -/
theorem runs_second_ok {ε : Type} (rel : Release) (base : RetryConfig ε) (auth : Recovery ε)
    (ctx : Context) (op : Operation ε) (w : World ε)
    (h1 : (invoke op w).1 = ErrESB14009)
    (h2 : (invoke op (onRetry auth ctx 0 ErrESB14009 (invoke op w).2)).1 = GoError.nil) :
    Runs (retryPolicy rel base auth ctx op w) w DoResult.ok
      [Effect.attempt, Effect.recovery ctx, Effect.attempt] := by
  have hm : MaxRetryAttempts = 0 + 2 := rfl
  obtain ⟨E0, hE0, hc0, _⟩ := onRetry_trace_calls auth ctx 0 ErrESB14009 (invoke op w).2
  rw [retryPolicy_eq, hm, policyLoop_more_sentinel rel auth ctx op 0 0 [] w h1,
    policyLoop_nil rel auth ctx op 0 1 _ _ h2]
  refine ⟨rfl, [Effect.attempt] ++ E0 ++ [Effect.attempt], ?_, ?_⟩
  · show (invoke op _).2.trace = _
    rw [invoke_trace, hE0, invoke_trace]
    simp only [List.append_assoc]
  · simp only [calls_append, hc0]
    rfl

/-- A run of the policy whose first invocation fails with the sentinel and whose second
fails with an error the predicate rejects. -/
theorem runs_second_other {ε : Type} (rel : Release) (base : RetryConfig ε)
    (auth : Recovery ε) (ctx : Context) (op : Operation ε) (w : World ε) (e : GoError)
    (h1 : (invoke op w).1 = ErrESB14009)
    (h2 : (invoke op (onRetry auth ctx 0 ErrESB14009 (invoke op w).2)).1 = e)
    (hnil : e ≠ GoError.nil) (hne : e ≠ ErrESB14009) :
    Runs (retryPolicy rel base auth ctx op w) w
      (DoResult.failed [ErrESB14009, unpackUnrecoverable e])
      ([Effect.attempt, Effect.recovery ctx, Effect.attempt] ++ rejectedHook rel ctx) := by
  have hm : MaxRetryAttempts = 0 + 2 := rfl
  subst h2
  obtain ⟨E0, hE0, hc0, _⟩ := onRetry_trace_calls auth ctx 0 ErrESB14009 (invoke op w).2
  obtain ⟨E, hE, hc⟩ := rejectedWorld_trace_calls rel auth ctx 1
    (invoke op (onRetry auth ctx 0 ErrESB14009 (invoke op w).2)).1
    (invoke op (onRetry auth ctx 0 ErrESB14009 (invoke op w).2)).2
  rw [retryPolicy_eq, hm, policyLoop_more_sentinel rel auth ctx op 0 0 [] w h1,
    policyLoop_other rel auth ctx op 0 1 _ _ hnil hne]
  refine ⟨rfl, [Effect.attempt] ++ E0 ++ [Effect.attempt] ++ E, ?_, ?_⟩
  · show (rejectedWorld rel auth ctx 1 _ _).trace = _
    rw [hE, invoke_trace, hE0, invoke_trace]
    simp only [List.append_assoc]
  · simp only [calls_append, hc0, hc]
    rfl

/-- A run of the policy whose first and second invocations fail with the sentinel. -/
theorem runs_second_sentinel {ε : Type} (rel : Release) (base : RetryConfig ε)
    (auth : Recovery ε) (ctx : Context) (op : Operation ε) (w : World ε)
    (h1 : (invoke op w).1 = ErrESB14009)
    (h2 : (invoke op (onRetry auth ctx 0 ErrESB14009 (invoke op w).2)).1 = ErrESB14009) :
    Runs (retryPolicy rel base auth ctx op w) w
      (DoResult.failed [ErrESB14009, ErrESB14009])
      [Effect.attempt, Effect.recovery ctx, Effect.attempt, Effect.recovery ctx] := by
  have hm : MaxRetryAttempts = 0 + 2 := rfl
  obtain ⟨E0, hE0, hc0, _⟩ := onRetry_trace_calls auth ctx 0 ErrESB14009 (invoke op w).2
  obtain ⟨E1, hE1, hc1, _⟩ := onRetry_trace_calls auth ctx 1 ErrESB14009
    (invoke op (onRetry auth ctx 0 ErrESB14009 (invoke op w).2)).2
  rw [retryPolicy_eq, hm, policyLoop_more_sentinel rel auth ctx op 0 0 [] w h1,
    policyLoop_last_sentinel rel auth ctx op 1 _ _ h2]
  refine ⟨rfl, [Effect.attempt] ++ E0 ++ [Effect.attempt] ++ E1, ?_, ?_⟩
  · show (onRetry auth ctx 1 ErrESB14009 _).trace = _
    rw [hE1, invoke_trace, hE0, invoke_trace]
    simp only [List.append_assoc]
  · simp only [calls_append, hc0, hc1]
    rfl



/-! ## Claims about the retry policy -/

/-- C3, as stated, fails under a release of the library that runs the hook before the
predicate: an operation that fails with the error for code "ESB-99-999" is invoked once,
and the recovery action is invoked once after it. -/
theorem retryPolicy_hook_first_counterexample :
    calls (retryPolicy Release.hookFirst exampleBase authRenewed ⟨CtxState.active⟩
      (alwaysReturns errESB99999) exampleWorld).2.trace
      = [Effect.attempt, Effect.recovery ⟨CtxState.active⟩] ∧
    recoveryCount (retryPolicy Release.hookFirst exampleBase authRenewed ⟨CtxState.active⟩
      (alwaysReturns errESB99999) exampleWorld).2.trace = 1 := by
  decide

/-- C3, amended: when the first invocation of the wrapped operation fails with an error `e`
other than `ErrESB14009`, the policy configured by `retryOptions` invokes the operation
exactly once and returns at once the failure that carries `e` alone (the error inside, when
`e` is an `Unrecoverable` wrapper). The recovery action is not invoked under a release
that consults `RetryIf` before `OnRetry`, and is invoked exactly once, after that single
invocation, under a release that runs `OnRetry` first. -/
theorem retryPolicy_other_error_once {ε : Type} (rel : Release) (base : RetryConfig ε)
    (auth : Recovery ε) (ctx : Context) (op : Operation ε) (w : World ε) (e : GoError)
    (he : (op w.bca w.remote).1 = e) (hnil : e ≠ GoError.nil) (hne : e ≠ ErrESB14009) :
    (retryPolicy rel base auth ctx op w).1 = DoResult.failed [unpackUnrecoverable e] ∧
    (∃ t : List Effect,
      (retryPolicy rel base auth ctx op w).2.trace = w.trace ++ t ∧
      calls t = Effect.attempt :: rejectedHook rel ctx ∧
      attemptCount t = 1 ∧
      recoveryCount t = (rejectedHook rel ctx).length) ∧
    rejectedHook Release.predicateFirst ctx = [] ∧
    rejectedHook Release.hookFirst ctx = [Effect.recovery ctx] ∧
    (rel = Release.predicateFirst →
      (retryPolicy rel base auth ctx op w).2.trace = w.trace ++ [Effect.attempt]) := by
  obtain ⟨hres, t, ht, hc⟩ := runs_first_other rel base auth ctx op w e he hnil hne
  refine ⟨hres, ⟨t, ht, hc, ?_, ?_⟩, rfl, rfl, ?_⟩
  · rw [← attemptCount_calls, hc]
    cases rel <;> rfl
  · rw [← recoveryCount_calls, hc]
    cases rel <;> rfl
  · intro hrel
    subst hrel
    have h1 : (invoke op w).1 ≠ GoError.nil := by rw [invoke_fst, he]; exact hnil
    have h2 : (invoke op w).1 ≠ ErrESB14009 := by rw [invoke_fst, he]; exact hne
    have hm : MaxRetryAttempts = 1 + 1 := rfl
    rw [retryPolicy_eq, hm, policyLoop_other Release.predicateFirst auth ctx op 1 0 [] w h1 h2]
    rfl

/-- C3, amended, at an operation that fails with the error for code "ESB-99-999", under
a release that consults the predicate first. -/
theorem retryPolicy_other_error_once_witness :
    (retryPolicy Release.predicateFirst exampleBase authRenewed ⟨CtxState.active⟩
      (alwaysReturns errESB99999) exampleWorld).1 = DoResult.failed [errESB99999] ∧
    (retryPolicy Release.predicateFirst exampleBase authRenewed ⟨CtxState.active⟩
      (alwaysReturns errESB99999) exampleWorld).2.trace = [Effect.attempt] :=
  ⟨(retryPolicy_other_error_once Release.predicateFirst exampleBase authRenewed
      ⟨CtxState.active⟩ (alwaysReturns errESB99999) exampleWorld errESB99999 rfl
      (by decide) (by decide)).1,
   (retryPolicy_other_error_once Release.predicateFirst exampleBase authRenewed
      ⟨CtxState.active⟩ (alwaysReturns errESB99999) exampleWorld errESB99999 rfl
      (by decide) (by decide)).2.2.2.2 rfl⟩

/-- C4, as stated, fails: for an operation that always fails with `ErrESB14009` the recovery
action runs twice for two invocations, the second time after the last invocation, which
is not between two invocations; under either release of the library. -/
theorem retryPolicy_recovery_after_last_counterexample :
    calls (retryPolicy Release.predicateFirst exampleBase authRenewed ⟨CtxState.active⟩
      (alwaysReturns ErrESB14009) exampleWorld).2.trace
      = [Effect.attempt, Effect.recovery ⟨CtxState.active⟩,
         Effect.attempt, Effect.recovery ⟨CtxState.active⟩] ∧
    calls (retryPolicy Release.hookFirst exampleBase authRenewed ⟨CtxState.active⟩
      (alwaysReturns ErrESB14009) exampleWorld).2.trace
      = [Effect.attempt, Effect.recovery ⟨CtxState.active⟩,
         Effect.attempt, Effect.recovery ⟨CtxState.active⟩] ∧
    attemptCount (retryPolicy Release.predicateFirst exampleBase authRenewed
      ⟨CtxState.active⟩ (alwaysReturns ErrESB14009) exampleWorld).2.trace = 2 ∧
    recoveryCount (retryPolicy Release.predicateFirst exampleBase authRenewed
      ⟨CtxState.active⟩ (alwaysReturns ErrESB14009) exampleWorld).2.trace = 2 := by
  decide

/-- C4, amended: for every wrapped operation the policy configured by `retryOptions` invokes
the operation at most `MaxRetryAttempts + 1` times, with the recovery action exactly once
between each two consecutive invocations, and the recovery action runs exactly once after
each invocation that fails with `ErrESB14009`, the last invocation of the run included.
The five runs the policy can make are listed with their invocations: an invocation that
returns no error ends the run with no recovery after it; one that fails with `ErrESB14009`
is followed by one recovery, and then by the next invocation if one is left; one that fails
with another error ends the run, with no recovery after it unless the release of the
library runs the hook before the predicate. -/
theorem retryPolicy_recovery_after_each_failure {ε : Type} (rel : Release)
    (base : RetryConfig ε) (auth : Recovery ε) (ctx : Context) (op : Operation ε)
    (w : World ε) :
    (∃ (k : Nat) (t : List Effect),
      (retryPolicy rel base auth ctx op w).2.trace = w.trace ++ t ∧
      attemptCount t = k + 1 ∧ attemptCount t ≤ MaxRetryAttempts + 1 ∧
      ((calls t = retrySchedule ctx k ∧ recoveryCount t = k) ∨
       (calls t = retrySchedule ctx k ++ [Effect.recovery ctx] ∧ recoveryCount t = k + 1))) ∧
    ((invoke op w).1 = GoError.nil →
      Runs (retryPolicy rel base auth ctx op w) w DoResult.ok [Effect.attempt]) ∧
    (∀ e : GoError, (invoke op w).1 = e → e ≠ GoError.nil → e ≠ ErrESB14009 →
      Runs (retryPolicy rel base auth ctx op w) w (DoResult.failed [unpackUnrecoverable e])
        ([Effect.attempt] ++ rejectedHook rel ctx)) ∧
    ((invoke op w).1 = ErrESB14009 →
      (invoke op (onRetry auth ctx 0 ErrESB14009 (invoke op w).2)).1 = GoError.nil →
      Runs (retryPolicy rel base auth ctx op w) w DoResult.ok
        [Effect.attempt, Effect.recovery ctx, Effect.attempt]) ∧
    (∀ e : GoError, (invoke op w).1 = ErrESB14009 →
      (invoke op (onRetry auth ctx 0 ErrESB14009 (invoke op w).2)).1 = e →
      e ≠ GoError.nil → e ≠ ErrESB14009 →
      Runs (retryPolicy rel base auth ctx op w) w
        (DoResult.failed [ErrESB14009, unpackUnrecoverable e])
        ([Effect.attempt, Effect.recovery ctx, Effect.attempt] ++ rejectedHook rel ctx)) ∧
    ((invoke op w).1 = ErrESB14009 →
      (invoke op (onRetry auth ctx 0 ErrESB14009 (invoke op w).2)).1 = ErrESB14009 →
      Runs (retryPolicy rel base auth ctx op w) w
        (DoResult.failed [ErrESB14009, ErrESB14009])
        [Effect.attempt, Effect.recovery ctx, Effect.attempt, Effect.recovery ctx]) ∧
    rejectedHook Release.predicateFirst ctx = [] ∧
    rejectedHook Release.hookFirst ctx = [Effect.recovery ctx] := by
  refine ⟨?_, runs_first_ok rel base auth ctx op w,
    fun e => runs_first_other rel base auth ctx op w e,
    runs_second_ok rel base auth ctx op w,
    fun e => runs_second_other rel base auth ctx op w e,
    runs_second_sentinel rel base auth ctx op w, rfl, rfl⟩
  have hm : MaxRetryAttempts = 1 + 1 := rfl
  obtain ⟨k, t, hk, ht, hcase⟩ := policyLoop_schedule rel auth ctx op 1 0 [] w
  rw [retryPolicy_eq, hm]
  rcases hcase with hl | hr
  · have hc := counts_retrySchedule ctx k t hl
    exact ⟨k, t, ht, hc.1, by omega, Or.inl ⟨hl, hc.2⟩⟩
  · have hc := counts_retrySchedule_recovery ctx k t hr
    exact ⟨k, t, ht, hc.1, by omega, Or.inr ⟨hr, hc.2⟩⟩

/-- C5: the code at the scenario of the claim. With `MaxRetryAttempts = 2` handed to
`retry.Attempts`, an operation that fails with `ErrESB14009` on its first and second
invocations and would return no error on its third is invoked twice and never a third
time; the recovery action runs twice, the second time after the last invocation, and the
result is the failure carrying `ErrESB14009` twice, under either release of the library. -/
theorem retryPolicy_third_invocation_never_made :
    MaxRetryAttempts = 2 ∧
    (failsTwice exampleClient 2).1 = GoError.nil ∧
    (retryPolicy Release.predicateFirst exampleBase authRenewed ⟨CtxState.active⟩ failsTwice
      exampleWorld).1 = DoResult.failed [ErrESB14009, ErrESB14009] ∧
    (retryPolicy Release.hookFirst exampleBase authRenewed ⟨CtxState.active⟩ failsTwice
      exampleWorld).1 = DoResult.failed [ErrESB14009, ErrESB14009] ∧
    calls (retryPolicy Release.predicateFirst exampleBase authRenewed ⟨CtxState.active⟩
      failsTwice exampleWorld).2.trace
      = [Effect.attempt, Effect.recovery ⟨CtxState.active⟩,
         Effect.attempt, Effect.recovery ⟨CtxState.active⟩] ∧
    attemptCount (retryPolicy Release.predicateFirst exampleBase authRenewed
      ⟨CtxState.active⟩ failsTwice exampleWorld).2.trace = 2 ∧
    recoveryCount (retryPolicy Release.predicateFirst exampleBase authRenewed
      ⟨CtxState.active⟩ failsTwice exampleWorld).2.trace = 2 ∧
    (retryPolicy Release.predicateFirst exampleBase authRenewed ⟨CtxState.active⟩ failsTwice
      exampleWorld).2.remote = 2 := by
  decide

/-- C6: when the wrapped operation fails with `ErrESB14009` on every invocation and the
recovery action fails on every invocation, the policy still uses its whole budget of
`MaxRetryAttempts` invocations, runs and logs the failing recovery after each, and returns
the failure that carries the operation's error `ErrESB14009` and no other error: the error
of the recovery action, assigned to the callback's own parameter, is not in the result.
This holds under either release of the library. -/
theorem retryPolicy_recovery_failure_not_returned {ε : Type} (rel : Release)
    (base : RetryConfig ε) (auth : Recovery ε) (ctx : Context) (op : Operation ε)
    (w : World ε)
    (hop : ∀ (b : BCA) (r : ε), (op b r).1 = ErrESB14009)
    (hauth : ∀ (c : Context) (b : BCA) (r : ε), (auth c b r).1 ≠ GoError.nil) :
    (∃ errorLog : List GoError,
      (retryPolicy rel base auth ctx op w).1 = DoResult.failed errorLog ∧
      errorLog.length = MaxRetryAttempts ∧ ∀ e ∈ errorLog, e = ErrESB14009) ∧
    ∃ t : List Effect,
      (retryPolicy rel base auth ctx op w).2.trace = w.trace ++ t ∧
      attemptCount t = MaxRetryAttempts ∧
      recoveryCount t = MaxRetryAttempts ∧
      errorEntryCount t = MaxRetryAttempts := by
  have hm : MaxRetryAttempts = 1 + 1 := rfl
  obtain ⟨hres, t, ht, hc, he⟩ :=
    policyLoop_always_sentinel rel auth ctx op hop hauth 1 0 [] w
  have hn := counts_retrySchedule_recovery ctx 1 t hc
  rw [retryPolicy_eq, hm]
  refine ⟨⟨_, hres, by simp, ?_⟩, t, ht, hn.1, hn.2, he⟩
  intro e hmem
  rw [List.nil_append] at hmem
  exact List.eq_of_mem_replicate hmem

/-- C6 at an operation that always fails with the sentinel and a recovery action that is
always refused. -/
theorem retryPolicy_recovery_failure_not_returned_witness :
    (∃ errorLog : List GoError,
      (retryPolicy Release.predicateFirst exampleBase authRefused ⟨CtxState.active⟩
        (alwaysReturns ErrESB14009) exampleWorld).1 = DoResult.failed errorLog ∧
      errorLog.length = MaxRetryAttempts ∧ ∀ e ∈ errorLog, e = ErrESB14009) ∧
    authRefused ⟨CtxState.active⟩ exampleClient 0
      = (GoError.value "net.OpError" "connection refused", exampleClient, 0) :=
  ⟨(retryPolicy_recovery_failure_not_returned Release.predicateFirst exampleBase authRefused
      ⟨CtxState.active⟩ (alwaysReturns ErrESB14009) exampleWorld (fun _ _ => rfl)
      (fun _ _ _ => by simp [authRefused])).1, rfl⟩

/-! ## Cancellation -/

/-- C7, as stated, fails: for a cancelled context, and for one past its deadline, the
predicate `retryDecision(ctx)` is true on `ErrESB14009`. -/
theorem retryDecision_cancelled_counterexample :
    retryDecision exampleClient ⟨CtxState.canceled⟩ ErrESB14009 = true ∧
    retryDecision exampleClient ⟨CtxState.deadlineExceeded⟩ ErrESB14009 = true := by
  decide

/-- C7, amended: `retryDecision(ctx)` does not consult `ctx`. For every context, cancelled or
past its deadline included, the predicate is true on `ErrESB14009`, false on every other
error, in particular on the context's own error `ctx.Err()`, and it is the same predicate
as for any other context. -/
theorem retryDecision_ignores_cancellation (b : BCA) (ctx : Context) :
    retryDecision b ctx ErrESB14009 = true ∧
    (∀ e : GoError, e ≠ ErrESB14009 → retryDecision b ctx e = false) ∧
    retryDecision b ctx ctx.Err = false ∧
    (∀ ctx' : Context, retryDecision b ctx' = retryDecision b ctx) := by
  refine ⟨by simp [retryDecision], fun e he => (retryDecision_eq_false b ctx e).2 he, ?_,
    fun _ => rfl⟩
  rw [retryDecision_eq_false, ErrESB14009_eq]
  rcases ctx with ⟨st⟩
  cases st <;> simp [Context.Err, jujuErrType]

/-! ## Claims about the callback -/

/-- C8: a log entry carries the session stored in the client when `log(ctx)` is called. In one
run of the callback in which the recovery action leaves the stored session `s1`, the start
entry, emitted before the recovery action, is tagged with the previous session, and every
entry emitted after it (the recovery-error entry, if any, and the end entry) with `s1`. -/
theorem log_reads_current_session {ε : Type} (auth : Recovery ε) (ctx : Context) (n : Nat)
    (err : GoError) (w : World ε) (s1 : String)
    (hs : (auth ctx w.bca w.remote).2.1.api.bcaSessID = s1) :
    (∀ b : BCA, (log b ctx).ctx.sessID = b.api.bcaSessID) ∧
    ∃ pre post : List Effect,
      (onRetry auth ctx n err w).trace = w.trace ++ pre ++ [Effect.recovery ctx] ++ post ∧
      sessionTags pre = [w.bca.api.bcaSessID] ∧
      sessionTags post ≠ [] ∧
      (∀ x ∈ sessionTags post, x = s1) ∧
      post.getLast? = some (Effect.logged ⟨Level.info, ⟨ctx, s1⟩, endOnRetry, []⟩) := by
  refine ⟨fun b => rfl, ?_⟩
  refine ⟨[Effect.logged ⟨Level.info, ⟨ctx, w.bca.api.bcaSessID⟩, startOnRetry,
      [Arg.uint n, Arg.err err]⟩], afterRecovery ctx s1 (auth ctx w.bca w.remote).1,
    ?_, rfl, ?_, sessionTags_afterRecovery _ _ _, ?_⟩
  · rw [onRetry_trace, hs]
    simp [onRetryEffects]
  · by_cases ha : (auth ctx w.bca w.remote).1 = GoError.nil <;>
      simp [afterRecovery, ha, sessionTags]
  · simp [afterRecovery]

/-- C9: one run of the callback, for every attempt number `n`, triggering error `err` and
outcome of the recovery action, has exactly these effects in this order: an info entry
with `n` and `err`, one invocation of the recovery action, an error entry with the recovery
error exactly when that error is not nil, an info end entry. The callback is a total
function, and logging leaves the client and the remote side as the recovery action left them. -/
theorem onRetry_effect_sequence {ε : Type} (auth : Recovery ε) (ctx : Context) (n : Nat)
    (err : GoError) (w : World ε) :
    (onRetry auth ctx n err w).trace = w.trace ++
      ([Effect.logged ⟨Level.info, ⟨ctx, w.bca.api.bcaSessID⟩,
          "=== START ON RETRY === [Attempts: %d Err: %+v]", [Arg.uint n, Arg.err err]⟩,
        Effect.recovery ctx] ++
       (if (auth ctx w.bca w.remote).1 ≠ GoError.nil then
          [Effect.logged ⟨Level.error, ⟨ctx, (auth ctx w.bca w.remote).2.1.api.bcaSessID⟩, "",
            [Arg.err (auth ctx w.bca w.remote).1]⟩]
        else []) ++
       [Effect.logged ⟨Level.info, ⟨ctx, (auth ctx w.bca w.remote).2.1.api.bcaSessID⟩,
          "=== END ON RETRY ===", []⟩]) ∧
    recoveryCount (onRetry auth ctx n err w).trace = recoveryCount w.trace + 1 ∧
    attemptCount (onRetry auth ctx n err w).trace = attemptCount w.trace ∧
    (onRetry auth ctx n err w).bca = (auth ctx w.bca w.remote).2.1 ∧
    (onRetry auth ctx n err w).remote = (auth ctx w.bca w.remote).2.2 := by
  refine ⟨?_, ?_, ?_, onRetry_bca auth ctx n err w, onRetry_remote auth ctx n err w⟩
  · rw [onRetry_trace]
    simp [onRetryEffects, afterRecovery, startOnRetry, endOnRetry]
  · rw [onRetry_trace]
    by_cases ha : (auth ctx w.bca w.remote).1 = GoError.nil <;>
      simp [onRetryEffects, afterRecovery, recoveryCount_append, recoveryCount, ha]
  · rw [onRetry_trace]
    by_cases ha : (auth ctx w.bca w.remote).1 = GoError.nil <;>
      simp [onRetryEffects, afterRecovery, attemptCount_append, attemptCount, ha]

/-- C8 at a recovery action that stores session "session-1" in a client holding "session-0". -/
theorem log_reads_current_session_witness :
    sessionTags (onRetry authRenewed ⟨CtxState.active⟩ 0 ErrESB14009 exampleWorld).trace
      = ["session-0", "session-1"] ∧
    ∃ pre post : List Effect,
      (onRetry authRenewed ⟨CtxState.active⟩ 0 ErrESB14009 exampleWorld).trace
        = exampleWorld.trace ++ pre ++ [Effect.recovery ⟨CtxState.active⟩] ++ post ∧
      sessionTags pre = [exampleWorld.bca.api.bcaSessID] ∧
      sessionTags post ≠ [] ∧
      (∀ x ∈ sessionTags post, x = "session-1") ∧
      post.getLast? = some (Effect.logged
        ⟨Level.info, ⟨⟨CtxState.active⟩, "session-1"⟩, endOnRetry, []⟩) :=
  ⟨by decide,
   (log_reads_current_session authRenewed ⟨CtxState.active⟩ 0 ErrESB14009 exampleWorld
      "session-1" rfl).2⟩

end Bca
